import Mathlib

/-!
Shallow embedding of `nymSocketManager.go` (package `nymsocketmanager`).

The manager owns a websocket connection, a socket listener, and three
one-shot signal channels.  Go channels are modelled as
`Option ChanState`: `none` is a nil channel, `some .opened` an allocated
open channel, `some .closed` a closed channel.  Closing an already
closed channel is a runtime panic in Go; the dispatcher model records
such an attempt in a `panicked` flag.

External effects (dial success, listener construction success, wire
writes succeeding, the identity reply arriving within the 5 second
timeout, the listener acknowledging the close within the 5 second
deadline) are inputs from an environment record; wire writes and
teardown steps are recorded as explicit event traces.
-/

namespace Nym

/-- State of an allocated Go channel used as a one-shot signal. -/
inductive ChanState
  | opened
  | closed
deriving DecidableEq, Repr

/-- Outbound messages (`NymMessage`).  Modelled from the spec: the file
declaring the wire messages is not under `src/`; spec section 6 gives the
shapes (identity-request carries nothing beyond its type; application
data carries an opaque payload). -/
inductive NymMessage
  | selfAddressRequest
  | sendMessage (recipient : String) (payload : String)
deriving DecidableEq, Repr

/-- The mutable state of `NymSocketManager` (struct fields of the Go
type, minus the logger and the stored handler function, which are
immutable after construction and carry no lifecycle state).  The
websocket connection and the socket listener are opaque handles, so
`Option Unit` keeps exactly their nil/non-nil distinction, which is all
the code ever inspects. -/
structure Manager where
  clientID : String
  connectionURI : String
  connection : Option Unit
  selfInstanceStoppedChan : Option ChanState
  socketListener : Option Unit
  closedSocketListenerChan : Option ChanState
  selfAddressReceivedChan : Option ChanState
deriving DecidableEq, Repr

/-- `NewNymSocketManager`: validates the URI, the handler and the logger,
then returns a zero-valued manager holding the URI.  The handler and
logger are functions; only their nil-ness is validated, kept here as
booleans. -/
def newNymSocketManager (connectionURI : String)
    (messageHandlerDefined : Bool) (loggerDefined : Bool) : Option Manager :=
  if connectionURI.length = 0 then none
  else if !messageHandlerDefined then none
  else if !loggerDefined then none
  else some
    { clientID := ""
      connectionURI := connectionURI
      connection := none
      selfInstanceStoppedChan := none
      socketListener := none
      closedSocketListenerChan := none
      selfAddressReceivedChan := none }

/-- `IsRunning`: the connection handle is the authoritative running flag. -/
def isRunning (n : Manager) : Bool :=
  n.connection.isSome

/-- `GetNymClientId`: reads the stored client identity. -/
def getNymClientId (n : Manager) : String :=
  n.clientID

/-- Errors produced by `Send`. -/
inductive SendError
  | notStarted
  | marshalFailed
  | writeFailed
deriving DecidableEq, Repr

/-- Environment for one `Send` call: whether `json.Marshal` succeeds and
whether the websocket write succeeds. -/
structure SendEnv where
  marshalOk : Bool
  writeOk : Bool
deriving DecidableEq, Repr

/-- `Send`: fails if the connection is nil, then marshals, then writes.
Returns the (unchanged) manager, the error if any, and the list of
messages that actually reached the wire. -/
def send (n : Manager) (msg : NymMessage) (env : SendEnv) :
    Manager × Option SendError × List NymMessage :=
  if n.connection.isNone then (n, some SendError.notStarted, [])
  else if !env.marshalOk then (n, some SendError.marshalFailed, [])
  else if !env.writeOk then (n, some SendError.writeFailed, [])
  else (n, none, [msg])

/-- Observable teardown events, in the order `selfDestruct` and
`sendCloseSignal` produce them. -/
inductive TEvent
  | sendCloseFrame
  | listenerClosedObserved
  | waitTimedOut
  | closeConnection
  | closeStoppedChan
deriving DecidableEq, Repr

/-- Environment for one teardown: whether the close-frame write succeeds
and whether the receive-loop-closed signal fires within the 5 second
deadline. -/
structure StopEnv where
  closeWriteOk : Bool
  ackInTime : Bool
deriving DecidableEq, Repr

/-- `sendCloseSignal`: writes a websocket close frame; fails (logged by
the caller side) if the connection is nil or the write fails. -/
def sendCloseSignal (n : Manager) (env : StopEnv) :
    Option SendError × List TEvent :=
  if n.connection.isNone then (some SendError.notStarted, [])
  else if !env.closeWriteOk then (some SendError.writeFailed, [])
  else (none, [TEvent.sendCloseFrame])

/-- `selfDestruct`: guarded on `selfInstanceStoppedChan` being non-nil
(the code treats a nil stopped-channel as "already selfDestructed").
Then, if a listener is attached: send the close frame (result ignored),
wait for the receive-loop-closed signal or the 5 second deadline, and
drop the listener reference.  Then close and nil the connection if
present, then close and nil the stopped-notification channel if
present. -/
def selfDestruct (n : Manager) (env : StopEnv) : Manager × List TEvent :=
  if n.selfInstanceStoppedChan.isNone then (n, [])
  else
    let step1 : Manager × List TEvent :=
      if n.socketListener.isNone then (n, [])
      else
        let sendEvs := (sendCloseSignal n env).2
        let waitEv : TEvent :=
          if env.ackInTime then TEvent.listenerClosedObserved
          else TEvent.waitTimedOut
        ({ n with socketListener := none }, sendEvs ++ [waitEv])
    let n1 := step1.1
    let step2 : Manager × List TEvent :=
      if n1.connection.isNone then (n1, [])
      else ({ n1 with connection := none }, [TEvent.closeConnection])
    let n2 := step2.1
    let step3 : Manager × List TEvent :=
      if n2.selfInstanceStoppedChan.isNone then (n2, [])
      else ({ n2 with selfInstanceStoppedChan := none }, [TEvent.closeStoppedChan])
    (step3.1, step1.2 ++ step2.2 ++ step3.2)

/-- `Stop`: no-op when the connection is already nil, otherwise runs
`selfDestruct` synchronously. -/
def stop (n : Manager) (env : StopEnv) : Manager × List TEvent :=
  if n.connection.isNone then (n, [])
  else selfDestruct n env

/-- Inbound frames, after the generic first-stage unmarshal of the Go
dispatcher.  `malformed` is an unparseable frame, `noType` a parsed
object without a `type` attribute; the typed variants carry whether the
second, fully-typed unmarshal succeeds, plus the fields dispatch reads.
The type strings themselves (`NymSelfAddressReplyType` etc.) live in a
file outside `src/`; spec section 6 fixes the discriminator set. -/
inductive Frame
  | malformed
  | noType
  | selfAddressReply (decodeOk : Bool) (address : String)
  | errorReply (decodeOk : Bool) (message : String)
  | received (decodeOk : Bool) (payload : String)
  | unknownType (ty : String)
deriving DecidableEq, Repr

/-- Result of one dispatcher call: the state after it, the payloads the
application handler was invoked with, and whether the call attempted to
close an already-closed channel (a Go runtime panic). -/
structure DispatchOut where
  state : Manager
  handlerCalls : List String
  panicked : Bool
deriving DecidableEq, Repr

/-- `messageDispatcher`: drops malformed or type-less frames; on an
identity reply stores the address and closes `selfAddressReceivedChan`
whenever that channel is non-nil (the code does not nil the channel
after closing it, so a second close attempt on the same channel is a
panic, recorded in `panicked`); on an error reply only logs; on
application data invokes the handler with the payload; drops unknown
discriminators. -/
def messageDispatcher (n : Manager) (f : Frame) : DispatchOut :=
  match f with
  | Frame.malformed => ⟨n, [], false⟩
  | Frame.noType => ⟨n, [], false⟩
  | Frame.selfAddressReply decodeOk address =>
    if !decodeOk then ⟨n, [], false⟩
    else
      let n1 := { n with clientID := address }
      match n1.selfAddressReceivedChan with
      | none => ⟨n1, [], false⟩
      | some ChanState.opened =>
        ⟨{ n1 with selfAddressReceivedChan := some ChanState.closed }, [], false⟩
      | some ChanState.closed => ⟨n1, [], true⟩
  | Frame.errorReply _ _ => ⟨n, [], false⟩
  | Frame.received decodeOk payload =>
    if !decodeOk then ⟨n, [], false⟩ else ⟨n, [payload], false⟩
  | Frame.unknownType _ => ⟨n, [], false⟩

/-- Errors produced by `Start`. -/
inductive StartError
  | dialFailed
  | listenerFailed
  | sendFailed
  | collectTimeout
deriving DecidableEq, Repr

/-- Outcome of `Start`: the Go `(chan struct\x7b\x7d, error)` pair
collapsed to its three possible shapes — `(nil, nil)` when already
running, `(nil, err)` on failure, `(chan, nil)` on success. -/
inductive StartResult
  | alreadyRunning
  | failed (e : StartError)
  | ok
deriving DecidableEq, Repr

/-- Environment for one `Start` call: dial outcome, listener
construction outcome, the environment of the identity-request `Send`,
whether an identity reply is dispatched within the 5 second timeout and
the address it carries, and the environment of any teardown the failure
paths run. -/
structure StartEnv where
  dialOk : Bool
  listenerOk : Bool
  sendEnv : SendEnv
  replyInTime : Bool
  replyAddress : String
  stopEnv : StopEnv
deriving DecidableEq, Repr

/-- `Start`: returns immediately when a connection already exists; dials;
constructs the socket listener (on failure: `selfDestruct`, error);
allocates `selfAddressReceivedChan`; sends the identity request through
`Send` (on failure: `selfDestruct`, error); waits for the dispatcher to
close the channel (modelled by running `messageDispatcher` on the reply
frame when it arrives in time) or times out (on timeout: `selfDestruct`,
error); on success nils `selfAddressReceivedChan`, allocates the
stopped-notification channel and returns it. -/
def start (n : Manager) (env : StartEnv) : Manager × StartResult :=
  if n.connection.isSome then (n, StartResult.alreadyRunning)
  else if !env.dialOk then (n, StartResult.failed StartError.dialFailed)
  else
    let n1 := { n with connection := some () }
    if !env.listenerOk then
      ((selfDestruct n1 env.stopEnv).1, StartResult.failed StartError.listenerFailed)
    else
      let n2 := { n1 with
        socketListener := some ()
        closedSocketListenerChan := some ChanState.opened }
      let n3 := { n2 with selfAddressReceivedChan := some ChanState.opened }
      match send n3 NymMessage.selfAddressRequest env.sendEnv with
      | (n4, some _, _) =>
        ((selfDestruct n4 env.stopEnv).1, StartResult.failed StartError.sendFailed)
      | (n4, none, _) =>
        if env.replyInTime then
          let n5 := (messageDispatcher n4
            (Frame.selfAddressReply true env.replyAddress)).state
          let n6 := { n5 with
            selfAddressReceivedChan := none
            selfInstanceStoppedChan := some ChanState.opened }
          (n6, StartResult.ok)
        else
          ((selfDestruct n4 env.stopEnv).1, StartResult.failed StartError.collectTimeout)

/-- Frames the dispatcher logs and drops without touching state:
unparseable, missing discriminator, error replies (decodable or not),
and unrecognized discriminators. -/
def droppedFrame : Frame → Bool
  | Frame.malformed => true
  | Frame.noType => true
  | Frame.errorReply _ _ => true
  | Frame.unknownType _ => true
  | _ => false

/-- A freshly constructed manager, as `NewNymSocketManager` returns it
for a valid URI, handler and logger. -/
def freshManager : Manager :=
  { clientID := ""
    connectionURI := "ws://127.0.0.1:1977"
    connection := none
    selfInstanceStoppedChan := none
    socketListener := none
    closedSocketListenerChan := none
    selfAddressReceivedChan := none }

/-- Concrete manager in the running state a successful `Start` leaves
behind. -/
def runningManager : Manager :=
  { clientID := "9dYi.5Kfh@Aj3k"
    connectionURI := "ws://127.0.0.1:1977"
    connection := some ()
    selfInstanceStoppedChan := some ChanState.opened
    socketListener := some ()
    closedSocketListenerChan := some ChanState.opened
    selfAddressReceivedChan := none }

/-- Concrete environment for a `Start` whose identity reply never
arrives within the 5 second timeout. -/
def timeoutEnv : StartEnv :=
  { dialOk := true
    listenerOk := true
    sendEnv := { marshalOk := true, writeOk := true }
    replyInTime := false
    replyAddress := ""
    stopEnv := { closeWriteOk := true, ackInTime := true } }

/-- C4: when a connection is already open, `Start` returns immediately
with no error and a nil channel and changes no manager state. -/
theorem start_alreadyRunning_noop (n : Manager) (env : StartEnv)
    (h : n.connection = some ()) :
    start n env = (n, StartResult.alreadyRunning) := by
  simp [start, h]

/-- Witness for `start_alreadyRunning_noop` at the running manager. -/
theorem start_alreadyRunning_noop_witness :
    runningManager.connection = some () ∧
    start runningManager timeoutEnv = (runningManager, StartResult.alreadyRunning) :=
  ⟨rfl, start_alreadyRunning_noop runningManager timeoutEnv rfl⟩

/-- C5: `Stop` on a manager whose connection is nil returns immediately,
with the state unchanged and no teardown event. -/
theorem stop_idempotent (n : Manager) (env : StopEnv)
    (h : n.connection = none) :
    stop n env = (n, []) := by
  simp [stop, h]

/-- Witness for `stop_idempotent` at a fresh manager. -/
theorem stop_idempotent_witness :
    freshManager.connection = none ∧
    stop freshManager { closeWriteOk := true, ackInTime := true } = (freshManager, []) :=
  ⟨rfl, stop_idempotent freshManager _ rfl⟩

/-- C8: `Send` with no open connection returns the not-started error,
writes nothing to the wire, and leaves the manager unchanged. -/
theorem send_notStarted (n : Manager) (msg : NymMessage) (env : SendEnv)
    (h : n.connection = none) :
    send n msg env = (n, some SendError.notStarted, []) := by
  simp [send, h]

/-- Witness for `send_notStarted` at a fresh manager. -/
theorem send_notStarted_witness :
    freshManager.connection = none ∧
    send freshManager (NymMessage.sendMessage "r" "hello")
      { marshalOk := true, writeOk := true } =
      (freshManager, some SendError.notStarted, []) :=
  ⟨rfl, send_notStarted freshManager _ _ rfl⟩

/-- C9: every dropped frame (unparseable, missing discriminator,
error reply, unrecognized discriminator) leaves the state untouched,
invokes no handler, panics nowhere, and preserves `isRunning`. -/
theorem droppedFrame_no_effect (n : Manager) (f : Frame)
    (h : droppedFrame f = true) :
    messageDispatcher n f = ⟨n, [], false⟩ ∧
    isRunning (messageDispatcher n f).state = isRunning n := by
  cases f <;> simp_all [droppedFrame, messageDispatcher]

/-- Witness for `droppedFrame_no_effect` at the error-reply frame of the
spec scenario, on a running manager. -/
theorem droppedFrame_no_effect_witness :
    droppedFrame (Frame.errorReply true "boom") = true ∧
    messageDispatcher runningManager (Frame.errorReply true "boom") =
      ⟨runningManager, [], false⟩ ∧
    isRunning (messageDispatcher runningManager (Frame.errorReply true "boom")).state =
      isRunning runningManager :=
  ⟨rfl, (droppedFrame_no_effect runningManager (Frame.errorReply true "boom") rfl).1,
    (droppedFrame_no_effect runningManager (Frame.errorReply true "boom") rfl).2⟩

/-- C6: teardown on a running manager (stopped-channel allocated,
listener attached, connection open, close-frame write succeeding)
produces exactly the trace: close frame to the peer, then the bounded
wait outcome (listener-closed signal or the 5 second deadline), then the
local connection close, then the stopped-notification close last — one
close of each resource, and the trace is the same whether or not the
peer acknowledges in time. -/
theorem selfDestruct_order (n : Manager) (env : StopEnv) (c : ChanState)
    (hs : n.selfInstanceStoppedChan = some c)
    (hl : n.socketListener = some ())
    (hc : n.connection = some ())
    (hw : env.closeWriteOk = true) :
    (selfDestruct n env).2 =
      [TEvent.sendCloseFrame,
       if env.ackInTime then TEvent.listenerClosedObserved else TEvent.waitTimedOut,
       TEvent.closeConnection, TEvent.closeStoppedChan] ∧
    (selfDestruct n env).1.socketListener = none ∧
    (selfDestruct n env).1.connection = none ∧
    (selfDestruct n env).1.selfInstanceStoppedChan = none := by
  simp [selfDestruct, sendCloseSignal, hs, hl, hc, hw]

/-- Witness for `selfDestruct_order` at the running manager with a peer
that never acknowledges. -/
theorem selfDestruct_order_witness :
    runningManager.selfInstanceStoppedChan = some ChanState.opened ∧
    runningManager.socketListener = some () ∧
    runningManager.connection = some () ∧
    (selfDestruct runningManager { closeWriteOk := true, ackInTime := false }).2 =
      [TEvent.sendCloseFrame, TEvent.waitTimedOut,
       TEvent.closeConnection, TEvent.closeStoppedChan] := by
  refine ⟨rfl, rfl, rfl, ?_⟩
  have h := selfDestruct_order runningManager
    { closeWriteOk := true, ackInTime := false } ChanState.opened rfl rfl rfl rfl
  simpa using h.1

/-- C7: a `Start` from a stopped state in which dial, listener creation
and the identity-request send all succeed and the identity reply arrives
in time returns success, and `GetNymClientId` then returns exactly the
address carried by that identity reply. -/
theorem start_success_clientID (n : Manager) (env : StartEnv)
    (h0 : n.connection = none)
    (h1 : env.dialOk = true)
    (h2 : env.listenerOk = true)
    (h3 : env.sendEnv.marshalOk = true)
    (h4 : env.sendEnv.writeOk = true)
    (h5 : env.replyInTime = true) :
    (start n env).2 = StartResult.ok ∧
    getNymClientId (start n env).1 = env.replyAddress := by
  simp [start, send, messageDispatcher, getNymClientId, h0, h1, h2, h3, h4, h5]

/-- Concrete environment for a fully successful `Start`. -/
def okEnv : StartEnv :=
  { dialOk := true
    listenerOk := true
    sendEnv := { marshalOk := true, writeOk := true }
    replyInTime := true
    replyAddress := "9dYi.5Kfh@Aj3k"
    stopEnv := { closeWriteOk := true, ackInTime := true } }

/-- Witness for `start_success_clientID` at a fresh manager. -/
theorem start_success_clientID_witness :
    freshManager.connection = none ∧
    (start freshManager okEnv).2 = StartResult.ok ∧
    getNymClientId (start freshManager okEnv).1 = "9dYi.5Kfh@Aj3k" :=
  ⟨rfl, (start_success_clientID freshManager okEnv rfl rfl rfl rfl rfl rfl).1,
    (start_success_clientID freshManager okEnv rfl rfl rfl rfl rfl rfl).2⟩

/-- C10: neither `Stop` nor `selfDestruct` ever touches the stored
client identity, so after teardown `GetNymClientId` still returns the
identity of the ended session. -/
theorem teardown_preserves_clientID (n : Manager) (env : StopEnv) :
    getNymClientId (stop n env).1 = getNymClientId n ∧
    getNymClientId (selfDestruct n env).1 = getNymClientId n := by
  have hsd : (selfDestruct n env).1.clientID = n.clientID := by
    simp only [selfDestruct]
    split_ifs <;> rfl
  refine ⟨?_, hsd⟩
  simp only [stop]
  split_ifs with h
  · rfl
  · exact hsd

/-- Environment for a `Start` whose socket-listener construction fails. -/
def listenerFailEnv : StartEnv :=
  { timeoutEnv with listenerOk := false }

/-- Environment for a `Start` whose identity-request send fails on the
wire. -/
def sendFailEnv : StartEnv :=
  { timeoutEnv with sendEnv := { marshalOk := true, writeOk := false } }

/-- C1 (refuted by evaluation): on a fresh manager, every post-dial
failure of `Start` — listener construction failing, the identity-request
send failing, or the identity reply timing out — returns an error yet
leaves the connection open (`isRunning` stays `true`), because the
`selfDestruct` the failure paths invoke hits its
`selfInstanceStoppedChan == nil` guard: that channel is only allocated
after the handshake succeeds, so the teardown is a no-op and the
transport and listener dangle. -/
theorem start_failure_leaves_partial_setup :
    ((start freshManager timeoutEnv).2 = StartResult.failed StartError.collectTimeout ∧
      isRunning (start freshManager timeoutEnv).1 = true ∧
      (start freshManager timeoutEnv).1.socketListener = some ()) ∧
    ((start freshManager listenerFailEnv).2 = StartResult.failed StartError.listenerFailed ∧
      isRunning (start freshManager listenerFailEnv).1 = true) ∧
    ((start freshManager sendFailEnv).2 = StartResult.failed StartError.sendFailed ∧
      isRunning (start freshManager sendFailEnv).1 = true) :=
  ⟨⟨rfl, rfl, rfl⟩, ⟨rfl, rfl⟩, ⟨rfl, rfl⟩⟩

/-- Manager state while `Start` is awaiting the identity reply: the
connection and listener are up and `selfAddressReceivedChan` is
allocated and open; the stopped-notification channel does not exist
yet. -/
def awaitingManager : Manager :=
  { clientID := ""
    connectionURI := "ws://127.0.0.1:1977"
    connection := some ()
    selfInstanceStoppedChan := none
    socketListener := some ()
    closedSocketListenerChan := some ChanState.opened
    selfAddressReceivedChan := some ChanState.opened }

/-- C2 (refuted by evaluation): dispatching two identity-reply frames in
a row while the identity-received signal is set closes the same channel
twice — the dispatcher closes `selfAddressReceivedChan` whenever it is
non-nil but never nils it (only `Start` does, later), so the second
dispatch attempts to close an already-closed channel, a Go runtime
panic. -/
theorem identity_reply_double_close :
    (messageDispatcher awaitingManager (Frame.selfAddressReply true "addr1")).panicked
      = false ∧
    (messageDispatcher
        (messageDispatcher awaitingManager (Frame.selfAddressReply true "addr1")).state
        (Frame.selfAddressReply true "addr2")).panicked = true :=
  ⟨rfl, rfl⟩

/-- C3 counterexample: on a running manager whose session identity is
already set (and whose identity-received signal is nil, i.e. `Start` has
long completed), a further identity-reply frame overwrites the stored
identity — it is not write-once per session. -/
theorem identity_overwritten_mid_session :
    getNymClientId runningManager = "9dYi.5Kfh@Aj3k" ∧
    getNymClientId
        (messageDispatcher runningManager (Frame.selfAddressReply true "other")).state
      = "other" ∧
    ("other" : String) ≠ "9dYi.5Kfh@Aj3k" := by
  refine ⟨rfl, rfl, ?_⟩
  decide

/-- C3 (amended): the client identity is last-writer-wins — every
well-formed identity-reply frame overwrites it, whenever it arrives —
and `GetNymClientId` returns the empty string on a manager on which it
was never set (as the constructor returns it). -/
theorem identity_last_writer_wins (n : Manager) (a : String)
    (uri : String) (m : Manager)
    (h : newNymSocketManager uri true true = some m) :
    getNymClientId (messageDispatcher n (Frame.selfAddressReply true a)).state = a ∧
    getNymClientId m = "" := by
  constructor
  · unfold messageDispatcher getNymClientId
    rcases h1 : n.selfAddressReceivedChan with _ | c
    · simp [h1]
    · cases c <;> simp [h1]
  · simp only [newNymSocketManager] at h
    split_ifs at h
    all_goals first
      | exact Option.noConfusion h
      | (injection h with h2; subst h2; rfl)

/-- Witness for `identity_last_writer_wins`: the constructor output for
the concrete URI is `freshManager`, a mid-session reply on the running
manager rewrites the identity, and the fresh identity is empty. -/
theorem identity_last_writer_wins_witness :
    newNymSocketManager "ws://127.0.0.1:1977" true true = some freshManager ∧
    getNymClientId
        (messageDispatcher runningManager (Frame.selfAddressReply true "other")).state
      = "other" ∧
    getNymClientId freshManager = "" :=
  ⟨rfl,
    (identity_last_writer_wins runningManager "other" "ws://127.0.0.1:1977"
      freshManager rfl).1,
    (identity_last_writer_wins runningManager "other" "ws://127.0.0.1:1977"
      freshManager rfl).2⟩

end Nym
